import Mathlib

/-!
Shallow embedding of the Klex layer-computation core:
`src/element.rs` (pixel grid and typed image wrappers),
`src/layer.rs` (the `Layer` contract and the primitive layers), and
`src/layer_graph.rs` (`InteractiveLayerGraph`).

External collaborators are embedded at their documented interface:
* `ndarray::Array2` is a shape-carrying rectangular buffer (`Array2` below);
  `map` preserves the shape and maps the elements.
* `petgraph::Graph` stores nodes in insertion order (`add_node` returns the
  node count before the call as the new stable index), `add_edge` panics when
  an endpoint is out of bounds, and `neighbors_directed(n, Incoming)` yields
  neighbors in reverse order of edge addition (the most recently added edge's
  source first), as documented by petgraph.
* `anyhow` errors are modelled by the structured type `LErr` whose
  constructors carry the data interpolated into the source's format strings.
* Rust panics (out-of-bounds indexing, `todo!()`) are modelled by the
  distinguished `panicked` outcome.

Machine floats (`f64`) in the RGBA → Gray+Alpha conversion are modelled by
real numbers; the final `.round() as u8` step is `round` into the saturating
byte cast `u8_saturate` (for the nonnegative values arising there, Rust's
round-half-away-from-zero agrees with `round`).
-/

/-- Failure values carried by `anyhow::Result` in the source, keyed by the
constructor/format string used at the failure site. -/
inductive LErr where
  /-- `context("Empty input")` in `Convert`/`Threshold`'s `Layer::compute`. -/
  | emptyInput : LErr
  /-- `"Casting failed. Expected input of type ..."` (a failed `dyn Any`
  downcast); the field is the expected type's name. -/
  | castFail (expected : String) : LErr
  /-- `Image::new`'s `"Unable to create image. Data has shape (r, c).
  Expected shape (h, w)"`, carrying the actual and the expected shape. -/
  | shapeMismatch (actual : Nat × Nat) (expected : Nat × Nat) : LErr
  /-- failure of the external raster-decode collaborator (`image::open`). -/
  | decodeFail (msg : String) : LErr
deriving DecidableEq, Repr

/-- `ndarray::Array2<T>`: a rectangular buffer with shape `(rows, cols)`
(`len_of(Axis(0))`, `len_of(Axis(1))`) and its elements in row-major order. -/
structure Array2 (α : Type) where
  rows : Nat
  cols : Nat
  data : List α
deriving DecidableEq, Repr

/-- `ndarray`'s elementwise `map`: preserves the shape. -/
def Array2.map {α β : Type} (a : Array2 α) (f : α → β) : Array2 β :=
  ⟨a.rows, a.cols, a.data.map f⟩

/-- `element::Image<PixelKind>`: the pixel grid plus declared width/height
(`src/element.rs`). -/
structure Image (α : Type) where
  data : Array2 α
  width : Nat
  height : Nat
deriving DecidableEq, Repr

/-- `Image::new` (`src/element.rs`): accepts the buffer exactly when its
shape equals `(height, width)`; otherwise fails naming both shapes. -/
def Image.new {α : Type} (data : Array2 α) (width height : Nat) :
    Except LErr (Image α) :=
  let data_shape := (data.rows, data.cols)
  if data_shape = (height, width) then
    .ok ⟨data, width, height⟩
  else
    .error (.shapeMismatch data_shape (height, width))

/-- The declared-shape invariant every image built through `Image::new`
satisfies. -/
def Image.wf {α : Type} (img : Image α) : Prop :=
  img.data.rows = img.height ∧ img.data.cols = img.width

instance {α : Type} (img : Image α) : Decidable (Image.wf img) := by
  unfold Image.wf; infer_instance

/-- `element::pixel::RGBA<u8>`: four byte channels, accessors `r g b a`;
`data()` exposes them as the underlying length-4 array. -/
structure RGBApixel where
  r : Nat
  g : Nat
  b : Nat
  a : Nat
deriving DecidableEq, Repr

/-- `pixel.data()` of an RGBA pixel: the channel array `[r, g, b, a]`. -/
def RGBApixel.channels (p : RGBApixel) : List Nat :=
  [p.r, p.g, p.b, p.a]

/-- Newtype `element::BinaryImage(Image<bool>)`. -/
structure BinaryImage where
  toImage : Image Bool
deriving DecidableEq, Repr

/-- `BinaryImage::new` delegates to `Image::new`. -/
def BinaryImage.new (data : Array2 Bool) (width height : Nat) :
    Except LErr BinaryImage :=
  (Image.new data width height).map BinaryImage.mk

def BinaryImage.width (i : BinaryImage) : Nat := i.toImage.width
def BinaryImage.height (i : BinaryImage) : Nat := i.toImage.height
def BinaryImage.data (i : BinaryImage) : Array2 Bool := i.toImage.data

/-- Newtype `element::GrayImage(Image<u8>)`. -/
structure GrayImage where
  toImage : Image Nat
deriving DecidableEq, Repr

/-- `GrayImage::new` delegates to `Image::new`. -/
def GrayImage.new (data : Array2 Nat) (width height : Nat) :
    Except LErr GrayImage :=
  (Image.new data width height).map GrayImage.mk

def GrayImage.width (i : GrayImage) : Nat := i.toImage.width
def GrayImage.height (i : GrayImage) : Nat := i.toImage.height
def GrayImage.data (i : GrayImage) : Array2 Nat := i.toImage.data

/-- Newtype `element::GrayAlphaImage(Image<(u8, u8)>)`. -/
structure GrayAlphaImage where
  toImage : Image (Nat × Nat)
deriving DecidableEq, Repr

/-- `GrayAlphaImage::new` delegates to `Image::new`. -/
def GrayAlphaImage.new (data : Array2 (Nat × Nat)) (width height : Nat) :
    Except LErr GrayAlphaImage :=
  (Image.new data width height).map GrayAlphaImage.mk

def GrayAlphaImage.width (i : GrayAlphaImage) : Nat := i.toImage.width
def GrayAlphaImage.height (i : GrayAlphaImage) : Nat := i.toImage.height
def GrayAlphaImage.data (i : GrayAlphaImage) : Array2 (Nat × Nat) := i.toImage.data

/-- Newtype `element::RgbaImage(Image<pixel::RGBA<u8>>)`. -/
structure RgbaImage where
  toImage : Image RGBApixel
deriving DecidableEq, Repr

/-- `RgbaImage::new` delegates to `Image::new`. -/
def RgbaImage.new (data : Array2 RGBApixel) (width height : Nat) :
    Except LErr RgbaImage :=
  (Image.new data width height).map RgbaImage.mk

def RgbaImage.width (i : RgbaImage) : Nat := i.toImage.width
def RgbaImage.height (i : RgbaImage) : Nat := i.toImage.height
def RgbaImage.data (i : RgbaImage) : Array2 RGBApixel := i.toImage.data

/-- The closed union of element values that flow across graph edges as
`Box<dyn Any>` in the source; the constructor is the runtime type tag that a
downcast checks. -/
inductive Value where
  | rgba (img : RgbaImage)
  | grayAlpha (img : GrayAlphaImage)
  | gray (img : GrayImage)
  | binary (img : BinaryImage)
deriving DecidableEq, Repr

/-- `downcast_ref::<BinaryImage>` on a type-erased value. -/
def Value.asBinary : Value → Option BinaryImage
  | .binary img => some img
  | _ => none

/-- `downcast_ref::<GrayImage>` on a type-erased value. -/
def Value.asGray : Value → Option GrayImage
  | .gray img => some img
  | _ => none

/-- `downcast_ref::<GrayAlphaImage>` on a type-erased value. -/
def Value.asGrayAlpha : Value → Option GrayAlphaImage
  | .grayAlpha img => some img
  | _ => none

/-- `downcast_ref::<RgbaImage>` on a type-erased value. -/
def Value.asRgba : Value → Option RgbaImage
  | .rgba img => some img
  | _ => none

/-- The result of a fallible Rust call: success, a recoverable `Err`, or a
panic (out-of-bounds indexing, `todo!()`). -/
inductive Outcome (α : Type) where
  | ok (a : α) : Outcome α
  | err (e : LErr) : Outcome α
  | panicked : Outcome α
deriving DecidableEq, Repr

/-! ## Primitive layer operations (`src/layer.rs`, `mod primitive`) -/

/-- `Threshold::<GrayImage, BinaryImage, u8>::compute` (`layer.rs` 252-257):
each output element is `pixel.cmp(&threshold) == ordering`. The source builds
the result with `BinaryImage::new(data, input.width(), input.height())`,
whose shape check always passes because `map` preserves the buffer's shape;
`thresholdNewAgrees` below records that agreement. -/
def Threshold.compute (threshold : Nat) (ordering : Ordering)
    (input : GrayImage) : BinaryImage :=
  ⟨⟨input.data.map (fun pixel => compare pixel threshold == ordering),
    input.width, input.height⟩⟩

/-- `Convert::<BinaryImage, GrayImage>::compute` (`layer.rs` 88-93):
`true → u8::MAX = 255`, `false → u8::MIN = 0`; the result type matches the
`operation: fn(&A) -> Result<B>` field the function is stored in. -/
def Convert.computeBinaryGray (input : BinaryImage) : Except LErr GrayImage :=
  GrayImage.new (input.data.map (fun pixel => if pixel then 255 else 0))
    input.width input.height

/-! ## The layer graph (`src/layer_graph.rs`)

The graph stores `Box<dyn InteractiveLayer>` trait objects. Every `Layer`
implementation in the repository (`Convert<A, B>`, `InputFile<A>`,
`Threshold<A, B, T>`, and the delegating `InterLayer` wrapper) has exactly one
piece of mutable state, its cached output slot, so a trait object is embedded
as a record of its `compute` behavior, its `update` behavior on the cached
slot, and the current (type-erased) cached output read by `output()`. -/

/-- A `Box<dyn InteractiveLayer>` graph node. `computeFn` is
`Layer::compute` (reading `&self`), `updateCache` is `Layer::update`
(given the current cache, the new output, and the state patch, it returns
the replacement cache, or the failure/panic `update` ends in), and `cache`
is what `Layer::output()` currently returns. -/
structure LayerObj where
  computeFn : List (Option Value) → Outcome (Option Value × Option Value)
  updateCache : Option Value → Option Value → Option Value →
    Outcome (Option Value)
  cache : Option Value

/-- The `update` body shared verbatim by `Convert`, `InputFile` and
`Threshold` (`layer.rs` 119-140 etc.): downcast the new output to the node's
concrete output type `B` (on failure, fail before touching the slot), store
it wholesale, then hit `todo!()` - a panic - if a state patch is present. -/
def primitiveUpdate {β : Type} (down : Value → Option β) (name : String)
    (_cache : Option Value) (output : Option Value)
    (state_updates : Option Value) : Outcome (Option Value) :=
  match output with
  | none =>
    match state_updates with
    | some _ => .panicked
    | none => .ok none
  | some v =>
    match down v with
    | none => .err (.castFail name)
    | some _ =>
      match state_updates with
      | some _ => .panicked
      | none => .ok (some v)

/-- The `compute` body shared by the generic `Layer` impls of `Convert` and
(modulo the pure operation) `Threshold` (`layer.rs` 102-117, 260-275):
`input[0]` - a panic when the input slice is empty - then
`context("Empty input")`, then the downcast to the expected input type,
then the stored operation. -/
def singleInputCompute {α β : Type} (down : Value → Option α) (name : String)
    (tag : β → Value) (operation : α → Except LErr β)
    (input : List (Option Value)) : Outcome (Option Value × Option Value) :=
  match input.get? 0 with
  | none => .panicked
  | some none => .err .emptyInput
  | some (some v) =>
    match down v with
    | none => .err (.castFail name)
    | some a =>
      match operation a with
      | .error e => .err e
      | .ok b => .ok (some (tag b), none)

/-- The trait object for a `Convert<A, B>` node, parameterized (as the Rust
generics are) by the input downcast, the output tag/downcast, and the stored
`operation: fn(&A) -> Result<B>`. -/
def convertObj {α β : Type} (downA : Value → Option α) (nameA : String)
    (tagB : β → Value) (downB : Value → Option β) (nameB : String)
    (operation : α → Except LErr β) (cache : Option β) : LayerObj where
  computeFn := singleInputCompute downA nameA tagB operation
  updateCache := primitiveUpdate downB nameB
  cache := cache.map tagB

/-- The trait object for a `Threshold<GrayImage, BinaryImage, u8>` node with
its fixed threshold and comparison ordering; its stored operation
`fn(&Self, &A) -> B` is pure. -/
def thresholdObj (threshold : Nat) (ordering : Ordering)
    (cache : Option BinaryImage) : LayerObj where
  computeFn := singleInputCompute Value.asGray "klex::element::GrayImage"
    Value.binary (fun a => .ok (Threshold.compute threshold ordering a))
  updateCache := primitiveUpdate Value.asBinary "klex::element::BinaryImage"
  cache := cache.map Value.binary

/-- The trait object for an `InputFile<RgbaImage>` node; the external raster
decode collaborator is the `decode` parameter and the input slice is ignored
(`layer.rs` 192-228). -/
def inputFileObj (decode : Unit → Except LErr RgbaImage)
    (cache : Option RgbaImage) : LayerObj where
  computeFn := fun _input =>
    match decode () with
    | .error e => .err e
    | .ok img => .ok (some (.rgba img), none)
  updateCache := primitiveUpdate Value.asRgba "klex::element::RgbaImage"
  cache := cache.map Value.rgba

/-- `InteractiveLayerGraph` (`layer_graph.rs`): a petgraph `Graph` - nodes in
insertion order, directed edges `(source, target)` in insertion order - plus
the `selected_layer` cursor. -/
structure InteractiveLayerGraph where
  nodes : List LayerObj
  edges : List (Nat × Nat)
  selected_layer : Nat

/-- `InteractiveLayerGraph::new`. -/
def InteractiveLayerGraph.new : InteractiveLayerGraph :=
  ⟨[], [], 0⟩

/-- petgraph `Graph::add_node`: appends the node; the new stable index is the
node count before the call. -/
def InteractiveLayerGraph.addNode (g : InteractiveLayerGraph)
    (node : LayerObj) : InteractiveLayerGraph × Nat :=
  ({ g with nodes := g.nodes ++ [node] }, g.nodes.length)

/-- petgraph `Graph::add_edge`: appends the edge, panicking (`none`) when an
endpoint is not an existing node. -/
def InteractiveLayerGraph.addEdge (g : InteractiveLayerGraph)
    (a b : Nat) : Option InteractiveLayerGraph :=
  if a < g.nodes.length ∧ b < g.nodes.length then
    some { g with edges := g.edges ++ [(a, b)] }
  else
    none

/-- `InteractiveLayerGraph::add_layer_with_children` (`layer_graph.rs`
26-42): add the node, then one edge from each listed parent to it, then one
edge from it to each listed child; the Rust method's return type is `()`.
`none` is the panic of an out-of-bounds edge endpoint. -/
def add_layer_with_children (g : InteractiveLayerGraph) (layer : LayerObj)
    (parent_nodes child_nodes : List Nat) : Option InteractiveLayerGraph :=
  let (g1, new_node) := g.addNode layer
  (parent_nodes.foldlM
      (fun (gg : InteractiveLayerGraph) parent => gg.addEdge parent new_node)
      g1).bind
    (fun g2 => child_nodes.foldlM
      (fun (gg : InteractiveLayerGraph) child => gg.addEdge new_node child) g2)

/-- The value the Rust `add_layer_with_children` call returns: its return
type is `()`, so every call returns the unit value. -/
def add_layer_with_children_ret (_g : InteractiveLayerGraph)
    (_layer : LayerObj) (_parent_nodes _child_nodes : List Nat) : Unit :=
  ()

/-- `InteractiveLayerGraph::add_layer`: the same with no children. -/
def add_layer (g : InteractiveLayerGraph) (layer : LayerObj)
    (parent_nodes : List Nat) : Option InteractiveLayerGraph :=
  add_layer_with_children g layer parent_nodes []

/-- The incoming edges of node `i`, in edge-insertion order. -/
def incomingEdges (g : InteractiveLayerGraph) (i : Nat) : List (Nat × Nat) :=
  g.edges.filter (fun e => e.2 = i)

/-- petgraph `neighbors_directed(i, Direction::Incoming)`: the sources of the
incoming edges of `i`, most recently added edge first (petgraph documents
that neighbors are listed in reverse order of edge addition). -/
def incomingNeighbors (g : InteractiveLayerGraph) (i : Nat) : List Nat :=
  ((incomingEdges g i).map (fun e => e.1)).reverse

/-- The input sequence `compute_layer` gathers for node `i` (`layer_graph.rs`
60-63): each incoming neighbor's current `output()`. Edge endpoints always
name existing nodes (`add_edge` enforces it), so the `Option.bind` never
hides a missing node. -/
def gatherInputs (g : InteractiveLayerGraph) (i : Nat) : List (Option Value) :=
  (incomingNeighbors g i).map
    (fun neighbor => (g.nodes.get? neighbor).bind (fun n => n.cache))

/-- The state `compute_layer` leaves behind together with what it returns:
`Ok(())` or a propagated failure - both exposing the graph the caller still
holds - or a panic. -/
inductive StepResult where
  | ok (g : InteractiveLayerGraph) : StepResult
  | err (e : LErr) (g : InteractiveLayerGraph) : StepResult
  | panicked : StepResult

/-- `InteractiveLayerGraph::compute_layer` (`layer_graph.rs` 48-68): gather
the incoming neighbors' cached outputs, run the node's `compute` (the `?`
propagates its failure with no state change), then run `update` and drop its
`Result` (line 66 discards it), so only a successful `update` replaces the
cache and a failed one leaves the graph as the node's `update` body left it -
untouched, since every `update` in the repository fails before writing. -/
def compute_layer (g : InteractiveLayerGraph) (i : Nat) : StepResult :=
  match g.nodes.get? i with
  | none => .panicked
  | some node =>
    match node.computeFn (gatherInputs g i) with
    | .panicked => .panicked
    | .err e => .err e g
    | .ok (output, state_changes) =>
      match node.updateCache node.cache output state_changes with
      | .panicked => .panicked
      | .err _ => .ok g
      | .ok c =>
        .ok { g with nodes := g.nodes.set i { node with cache := c } }

/-! ## The RGBA → Gray+Alpha conversion (`layer.rs` 48-71)

The `f64` arithmetic is modelled over the real numbers. -/

/-- The per-channel linearization the source applies to each normalized
channel (`layer.rs` 54-60). Note the source's else branch reads
`((c + 0.55) / 1.055).powf(2.4)` - with `0.55`, not `0.055`. -/
noncomputable def srgb_linearize (c : ℝ) : ℝ :=
  if c ≤ 0.04045 then c / 12.92 else ((c + 0.55) / 1.055) ^ (2.4 : ℝ)

/-- Modelled from the spec: the documented sRGB-to-linear map, `c/12.92` when
`c ≤ 0.04045` and `((c+0.055)/1.055)^2.4` otherwise - the standard formula
the source's comment (the linked colourimetric conversion) also refers to. -/
noncomputable def srgb_linearize_documented (c : ℝ) : ℝ :=
  if c ≤ 0.04045 then c / 12.92 else ((c + 0.055) / 1.055) ^ (2.4 : ℝ)

/-- The weighted combination of the linearized channels (`layer.rs` 62-64),
parameterized by the per-channel linearization; the byte channels are first
normalized by `/ 255`. -/
noncomputable def linear_luminance (lin : ℝ → ℝ) (r g b : Nat) : ℝ :=
  0.2126 * lin ((r : ℝ) / 255) + 0.7152 * lin ((g : ℝ) / 255)
    + 0.0722 * lin ((b : ℝ) / 255)

/-- Rust's saturating float-to-`u8` cast applied to the rounded value. -/
def u8_saturate (z : ℤ) : Nat :=
  (max 0 (min 255 z)).toNat

/-- The gray byte the source computes for channel bytes `(r, g, b)`:
`(255.0 * linear_luminance).round() as u8` with the source's linearization. -/
noncomputable def gray_value (r g b : Nat) : Nat :=
  u8_saturate (round (255 * linear_luminance srgb_linearize r g b))

/-- The gray byte the documented formula yields for `(r, g, b)`. -/
noncomputable def gray_value_documented (r g b : Nat) : Nat :=
  u8_saturate (round (255 * linear_luminance srgb_linearize_documented r g b))

/-- The per-pixel body of `Convert::<RgbaImage, GrayAlphaImage>::compute`
(`layer.rs` 52-68): the computed gray byte paired with `pixel.data()[3]`, the
alpha byte passed through unchanged. -/
noncomputable def rgba_to_gray_alpha_pixel (p : RGBApixel) : Nat × Nat :=
  (gray_value p.r p.g p.b, p.a)

/-- `Convert::<RgbaImage, GrayAlphaImage>::compute` (`layer.rs` 48-71): map
the pixel grid and rebuild through `GrayAlphaImage::new` with the input's
width and height. -/
noncomputable def Convert.computeRgbaGrayAlpha (input : RgbaImage) :
    Except LErr GrayAlphaImage :=
  GrayAlphaImage.new (input.data.map rgba_to_gray_alpha_pixel)
    input.width input.height

/-! ## Theorems -/

/-- C5: `Image` construction succeeds exactly when the buffer's shape equals
`(h, w)`, in which case the accessors return the declared `w` and `h`; any
mismatched shape fails with a `ShapeMismatch` failure naming the actual
buffer shape and the declared shape. -/
theorem image_new_shape_contract {α : Type} (data : Array2 α) (w h : Nat) :
    ((data.rows, data.cols) = (h, w) →
      ∃ img, Image.new data w h = .ok img ∧ img.width = w ∧ img.height = h)
    ∧ ((data.rows, data.cols) ≠ (h, w) →
      Image.new data w h = .error (.shapeMismatch (data.rows, data.cols) (h, w))) := by
  constructor
  · intro hsh
    exact ⟨⟨data, w, h⟩, by simp [Image.new, hsh], rfl, rfl⟩
  · intro hsh
    simp [Image.new, hsh]

/-- Witness for C5: a 1×2 buffer is accepted with declared width 2, height 1
and rejected with declared width 3, with the failure naming both shapes. -/
theorem image_new_shape_contract_witness :
    (∃ img, Image.new (⟨1, 2, [5, 6]⟩ : Array2 Nat) 2 1 = .ok img
      ∧ img.width = 2 ∧ img.height = 1)
    ∧ Image.new (⟨1, 2, [5, 6]⟩ : Array2 Nat) 3 1
      = .error (.shapeMismatch (1, 2) (1, 3)) :=
  ⟨(image_new_shape_contract ⟨1, 2, [5, 6]⟩ 2 1).1 (by decide),
   (image_new_shape_contract ⟨1, 2, [5, 6]⟩ 3 1).2 (by decide)⟩

/-- C6: on a well-formed grayscale input, `Threshold`'s compute produces a
binary image of the same width and height in which every element equals
`pixel.cmp(threshold) == ordering`; the source's
`BinaryImage::new(data, input.width(), input.height())` construction agrees
with it (the shape check always passes). -/
theorem threshold_compute_contract (t : Nat) (ord : Ordering) (img : GrayImage)
    (hwf : Image.wf img.toImage) :
    BinaryImage.new (img.data.map (fun pixel => compare pixel t == ord))
        img.width img.height = .ok (Threshold.compute t ord img)
    ∧ (Threshold.compute t ord img).width = img.width
    ∧ (Threshold.compute t ord img).height = img.height
    ∧ ∀ k, (Threshold.compute t ord img).data.data.get? k
        = (img.data.data.get? k).map (fun pixel => compare pixel t == ord) := by
  refine ⟨?_, rfl, rfl, ?_⟩
  · simp [BinaryImage.new, Image.new, Array2.map, Threshold.compute,
      GrayImage.data, GrayImage.width, GrayImage.height, hwf.1, hwf.2,
      Except.map]
  · intro k
    simp [Threshold.compute, Array2.map, GrayImage.data, BinaryImage.data,
      List.get?_eq_getElem?, List.getElem?_map]

/-- Witness for C6: thresholding the 1×2 gray image `[100, 200]` at 128 with
ordering `Greater`. -/
theorem threshold_compute_contract_witness :
    Image.wf (⟨⟨1, 2, [100, 200]⟩, 2, 1⟩ : Image Nat)
    ∧ (Threshold.compute 128 .gt ⟨⟨⟨1, 2, [100, 200]⟩, 2, 1⟩⟩).width
      = GrayImage.width ⟨⟨⟨1, 2, [100, 200]⟩, 2, 1⟩⟩ :=
  ⟨by decide,
   (threshold_compute_contract 128 .gt ⟨⟨⟨1, 2, [100, 200]⟩, 2, 1⟩⟩ (by decide)).2.1⟩

/-- C7: on a well-formed binary input, the Binary → Gray conversion succeeds
and maps every `true` pixel to 255 and every `false` pixel to 0, preserving
width and height. -/
theorem convert_binary_gray_contract (img : BinaryImage)
    (hwf : Image.wf img.toImage) :
    ∃ out, Convert.computeBinaryGray img = .ok out
      ∧ out.width = img.width ∧ out.height = img.height
      ∧ ∀ k, out.data.data.get? k
          = (img.data.data.get? k).map (fun pixel => if pixel then 255 else 0) := by
  refine ⟨⟨⟨img.data.map (fun pixel => if pixel then 255 else 0),
    img.width, img.height⟩⟩, ?_, rfl, rfl, ?_⟩
  · simp [Convert.computeBinaryGray, GrayImage.new, Image.new, Array2.map,
      BinaryImage.data, BinaryImage.width, BinaryImage.height, hwf.1, hwf.2,
      Except.map]
  · intro k
    simp [Array2.map, BinaryImage.data, GrayImage.data,
      List.get?_eq_getElem?, List.getElem?_map]

/-- Witness for C7: converting the 1×2 binary image `[true, false]`. -/
theorem convert_binary_gray_contract_witness :
    Image.wf (⟨⟨1, 2, [true, false]⟩, 2, 1⟩ : Image Bool)
    ∧ ∃ out, Convert.computeBinaryGray ⟨⟨⟨1, 2, [true, false]⟩, 2, 1⟩⟩ = .ok out
      ∧ out.width = BinaryImage.width ⟨⟨⟨1, 2, [true, false]⟩, 2, 1⟩⟩
      ∧ out.height = BinaryImage.height ⟨⟨⟨1, 2, [true, false]⟩, 2, 1⟩⟩
      ∧ ∀ k, out.data.data.get? k
          = ((BinaryImage.data ⟨⟨⟨1, 2, [true, false]⟩, 2, 1⟩⟩).data.get? k).map
              (fun pixel => if pixel then 255 else 0) :=
  ⟨by decide, convert_binary_gray_contract ⟨⟨⟨1, 2, [true, false]⟩, 2, 1⟩⟩ (by decide)⟩

/-- C8: on a well-formed grayscale image all of whose pixels lie in
`{0, 255}`, thresholding at 128 with ordering `Greater` and then converting
Binary → Gray returns the original image. -/
theorem gray_binary_gray_roundtrip (img : GrayImage)
    (hwf : Image.wf img.toImage)
    (hbin : ∀ p ∈ img.data.data, p = 0 ∨ p = 255) :
    Convert.computeBinaryGray (Threshold.compute 128 .gt img) = .ok img := by
  obtain ⟨⟨⟨r, c, d⟩, w, h⟩⟩ := img
  obtain ⟨hr, hc⟩ := hwf
  dsimp only at hr hc
  subst hr
  subst hc
  simp only [GrayImage.data] at hbin
  have hmap : (d.map (fun pixel => compare pixel 128 == Ordering.gt)).map
      (fun pixel => if pixel then 255 else 0) = d := by
    rw [List.map_map]
    have hcongr : ∀ p ∈ d,
        ((fun pixel => if pixel then 255 else 0) ∘
          (fun pixel => compare pixel 128 == Ordering.gt)) p = id p := by
      intro p hp
      rcases hbin p hp with rfl | rfl <;> rfl
    rw [List.map_congr_left hcongr, List.map_id]
  simp [Convert.computeBinaryGray, Threshold.compute, GrayImage.new,
    Image.new, Array2.map, BinaryImage.data, BinaryImage.width,
    BinaryImage.height, GrayImage.data, GrayImage.width, GrayImage.height,
    Except.map, hmap]

/-- Witness for C8: round-tripping the 1×2 gray image `[0, 255]`. -/
theorem gray_binary_gray_roundtrip_witness :
    (Image.wf (⟨⟨1, 2, [0, 255]⟩, 2, 1⟩ : Image Nat)
      ∧ ∀ p ∈ [0, 255], p = 0 ∨ p = 255)
    ∧ Convert.computeBinaryGray
        (Threshold.compute 128 .gt ⟨⟨⟨1, 2, [0, 255]⟩, 2, 1⟩⟩)
      = .ok ⟨⟨⟨1, 2, [0, 255]⟩, 2, 1⟩⟩ :=
  ⟨⟨by decide, by decide⟩,
   gray_binary_gray_roundtrip ⟨⟨⟨1, 2, [0, 255]⟩, 2, 1⟩⟩ (by decide) (by decide)⟩

/-! ## Graph-level examples shared by several witnesses -/

/-- The `Convert<BinaryImage, GrayImage>` trait object as
`Convert::<BinaryImage, GrayImage>::new` builds it (with a given cache). -/
def convertBinGrayObj (cache : Option GrayImage) : LayerObj :=
  convertObj Value.asBinary "klex::element::BinaryImage" Value.gray
    Value.asGray "klex::element::GrayImage" Convert.computeBinaryGray cache

/-- A stand-in for the external raster decode collaborator that fails. -/
def stubDecode : Unit → Except LErr RgbaImage :=
  fun _ => .error (.decodeFail "stub")

/-- A 1×1 gray image holding the single byte `v`. -/
def grayConst (v : Nat) : GrayImage :=
  ⟨⟨⟨1, 1, [v]⟩, 1, 1⟩⟩

/-- A two-node chain, source (never computed) feeding a Convert node. -/
def gChain : InteractiveLayerGraph :=
  ⟨[inputFileObj stubDecode none, convertBinGrayObj none], [(0, 1)], 0⟩

/-- A lone Convert node with no incoming edge. -/
def gSingleConvert : InteractiveLayerGraph :=
  ⟨[convertBinGrayObj none], [], 0⟩

/-- C4: when a node's `compute` returns a failure, `compute_layer` propagates
exactly that failure to the caller and the graph - in particular the node's
cached output - is left exactly as it was before the call. -/
theorem compute_layer_propagates_compute_failure (g : InteractiveLayerGraph)
    (i : Nat) (node : LayerObj) (e : LErr)
    (hnode : g.nodes.get? i = some node)
    (hfail : node.computeFn (gatherInputs g i) = .err e) :
    compute_layer g i = .err e g := by
  simp only [compute_layer, hnode, hfail]

/-- Witness for C4: in the two-node chain, the Convert node's `compute` fails
with the empty-input failure (its parent never computed) and `compute_layer`
propagates it, leaving the graph untouched. -/
theorem compute_layer_propagates_compute_failure_witness :
    gChain.nodes.get? 1 = some (convertBinGrayObj none)
    ∧ (convertBinGrayObj none).computeFn (gatherInputs gChain 1)
      = .err .emptyInput
    ∧ compute_layer gChain 1 = .err .emptyInput gChain :=
  ⟨rfl, rfl,
   compute_layer_propagates_compute_failure gChain 1 (convertBinGrayObj none)
     .emptyInput rfl rfl⟩

/-- A `dyn Layer` implementation whose `compute` boxes a `GrayImage` while
its `update` body (the shared primitive one) expects a `BinaryImage`: the
scenario C10 poses, realizable by a hand-written `Layer` impl behind the
graph's `Box<dyn InteractiveLayer>` storage. -/
def mismatchedLayer : LayerObj where
  computeFn := fun _ => .ok (some (.gray (grayConst 7)), none)
  updateCache := primitiveUpdate Value.asBinary "klex::element::BinaryImage"
  cache := none

/-- A graph holding only the mismatched layer. -/
def gMismatch : InteractiveLayerGraph :=
  ⟨[mismatchedLayer], [], 0⟩

/-- C10: when a node's `compute` succeeds but its `update` returns a failure,
`compute_layer` still returns success: line 66 of `layer_graph.rs` discards
`update`'s `Result`, so an update failure is never propagated and the graph
is returned unchanged. -/
theorem compute_layer_discards_update_failure (g : InteractiveLayerGraph)
    (i : Nat) (node : LayerObj) (output st : Option Value) (e : LErr)
    (hnode : g.nodes.get? i = some node)
    (hcomp : node.computeFn (gatherInputs g i) = .ok (output, st))
    (hupd : node.updateCache node.cache output st = .err e) :
    compute_layer g i = .ok g := by
  simp only [compute_layer, hnode, hcomp, hupd]

/-- Witness for C10: the mismatched layer's `compute` succeeds with a
`GrayImage`, its `update` rejects the downcast to `BinaryImage`, and
`compute_layer` still returns success with the graph unchanged. -/
theorem compute_layer_discards_update_failure_witness :
    mismatchedLayer.computeFn (gatherInputs gMismatch 0)
      = .ok (some (.gray (grayConst 7)), none)
    ∧ mismatchedLayer.updateCache mismatchedLayer.cache
        (some (.gray (grayConst 7))) none
      = .err (.castFail "klex::element::BinaryImage")
    ∧ compute_layer gMismatch 0 = .ok gMismatch :=
  ⟨rfl, rfl,
   compute_layer_discards_update_failure gMismatch 0 mismatchedLayer
     (some (.gray (grayConst 7))) none (.castFail "klex::element::BinaryImage")
     rfl rfl rfl⟩

/-- Two cached parents feeding a third node, with the edge from node 0 added
before the edge from node 1. -/
def gTwoParents : InteractiveLayerGraph :=
  ⟨[convertBinGrayObj (some (grayConst 10)),
    convertBinGrayObj (some (grayConst 20)),
    convertBinGrayObj none],
   [(0, 2), (1, 2)], 0⟩

/-- Counterexample to C1 as stated: in `gTwoParents` the first incoming edge
of node 2 was added from node 0 (cache `grayConst 10`) and the second from
node 1 (cache `grayConst 20`), yet the input sequence `compute_layer` gathers
is not `[output of edge-0 parent, output of edge-1 parent]` - petgraph lists
incoming neighbors most recently added edge first. -/
theorem gather_inputs_insertion_order_cex :
    gatherInputs gTwoParents 2
      ≠ [some (.gray (grayConst 10)), some (.gray (grayConst 20))] := by
  decide

/-- C1 amended: `compute_layer` gathers the parents' cached outputs in
reverse edge-insertion order: the gathered sequence is the reverse of the
insertion-order list, and `inputs[k]` is the cached output of the parent on
the `(n-1-k)`-th incoming edge (where `n` is the number of incoming edges),
not the `k`-th. -/
theorem gather_inputs_reverse_order (g : InteractiveLayerGraph) (i : Nat) :
    gatherInputs g i
      = ((incomingEdges g i).map
          (fun e => (g.nodes.get? e.1).bind (fun n => n.cache))).reverse
    ∧ ∀ k, k < (incomingEdges g i).length →
        (gatherInputs g i).get? k
          = ((incomingEdges g i).get? ((incomingEdges g i).length - 1 - k)).map
              (fun e => (g.nodes.get? e.1).bind (fun n => n.cache)) := by
  constructor
  · simp [gatherInputs, incomingNeighbors, List.map_reverse, List.map_map,
      Function.comp]
  · intro k hk
    have hlen : k < ((incomingEdges g i).map
        (fun e => (g.nodes.get? e.1).bind (fun n => n.cache))).length := by
      simpa using hk
    have hrev := List.get?_reverse
      (l := (incomingEdges g i).map
        (fun e => (g.nodes.get? e.1).bind (fun n => n.cache))) hlen
    have hfirst : gatherInputs g i
        = ((incomingEdges g i).map
            (fun e => (g.nodes.get? e.1).bind (fun n => n.cache))).reverse := by
      simp [gatherInputs, incomingNeighbors, List.map_reverse, List.map_map,
        Function.comp]
    rw [hfirst, hrev]
    simp [List.get?_eq_getElem?, List.getElem?_map]

/-- Witness for C1's amended theorem: in `gTwoParents`, node 2 has two
incoming edges and `inputs[0]` is the cached output of the parent on the
second (most recently added) incoming edge. -/
theorem gather_inputs_reverse_order_witness :
    0 < (incomingEdges gTwoParents 2).length
    ∧ (gatherInputs gTwoParents 2).get? 0
      = ((incomingEdges gTwoParents 2).get?
          ((incomingEdges gTwoParents 2).length - 1 - 0)).map
          (fun e => (gTwoParents.nodes.get? e.1).bind (fun n => n.cache)) :=
  ⟨by decide, (gather_inputs_reverse_order gTwoParents 2).2 0 (by decide)⟩

/-- Folding `add_edge` over parent indices appends one edge from each parent
to the fixed target, in list order, panicking on no valid input. -/
theorem foldlM_addEdge_into (ps : List Nat) (g : InteractiveLayerGraph)
    (target : Nat) (hps : ∀ p ∈ ps, p < g.nodes.length)
    (htarget : target < g.nodes.length) :
    ps.foldlM (fun (gg : InteractiveLayerGraph) p => gg.addEdge p target) g
      = some { g with edges := g.edges ++ ps.map (fun p => (p, target)) } := by
  induction ps generalizing g with
  | nil => simp
  | cons p rest ih =>
    have hp : p < g.nodes.length := hps p (List.mem_cons_self p rest)
    have hstep : InteractiveLayerGraph.addEdge g p target
        = some { g with edges := g.edges ++ [(p, target)] } := by
      simp [InteractiveLayerGraph.addEdge, hp, htarget]
    rw [List.foldlM_cons, hstep]
    have hrest := ih { g with edges := g.edges ++ [(p, target)] }
      (fun q hq => hps q (List.mem_cons_of_mem p hq)) htarget
    simpa [List.append_assoc] using hrest

/-- Folding `add_edge` over child indices appends one edge from the fixed
source to each child, in list order. -/
theorem foldlM_addEdge_out (cs : List Nat) (g : InteractiveLayerGraph)
    (src : Nat) (hcs : ∀ c ∈ cs, c < g.nodes.length)
    (hsrc : src < g.nodes.length) :
    cs.foldlM (fun (gg : InteractiveLayerGraph) c => gg.addEdge src c) g
      = some { g with edges := g.edges ++ cs.map (fun c => (src, c)) } := by
  induction cs generalizing g with
  | nil => simp
  | cons c rest ih =>
    have hc : c < g.nodes.length := hcs c (List.mem_cons_self c rest)
    have hstep : InteractiveLayerGraph.addEdge g src c
        = some { g with edges := g.edges ++ [(src, c)] } := by
      simp [InteractiveLayerGraph.addEdge, hc, hsrc]
    rw [List.foldlM_cons, hstep]
    have hrest := ih { g with edges := g.edges ++ [(src, c)] }
      (fun q hq => hcs q (List.mem_cons_of_mem c hq)) hsrc
    simpa [List.append_assoc] using hrest

/-- C2 amended: each `add_layer_with_children` call (with in-range parent and
child indices) inserts the node, whose newly assigned stable index is the
node count before the call - so a fresh graph assigns `0, 1, 2, ...` in call
order - and wires one edge from each listed parent to the new node and one
edge from the new node to each listed child; but the call's return type is
`()`, so the index is not returned to the caller. -/
theorem add_layer_with_children_contract (g : InteractiveLayerGraph)
    (layer : LayerObj) (ps cs : List Nat)
    (hps : ∀ p ∈ ps, p < g.nodes.length)
    (hcs : ∀ c ∈ cs, c < g.nodes.length + 1) :
    add_layer_with_children g layer ps cs
      = some { nodes := g.nodes ++ [layer],
               edges := g.edges ++ ps.map (fun p => (p, g.nodes.length))
                 ++ cs.map (fun c => (g.nodes.length, c)),
               selected_layer := g.selected_layer } := by
  unfold add_layer_with_children InteractiveLayerGraph.addNode
  have hlen : ({ g with nodes := g.nodes ++ [layer]} :
      InteractiveLayerGraph).nodes.length = g.nodes.length + 1 := by
    simp
  have hfold1 := foldlM_addEdge_into ps { g with nodes := g.nodes ++ [layer] }
    g.nodes.length
    (fun p hp => by rw [hlen]; exact Nat.lt_succ_of_lt (hps p hp))
    (by rw [hlen]; exact Nat.lt_succ_self _)
  have hfold2 := foldlM_addEdge_out cs
    { g with nodes := g.nodes ++ [layer],
             edges := g.edges ++ ps.map (fun p => (p, g.nodes.length)) }
    g.nodes.length
    (fun c hc => by simpa using hcs c hc)
    (by simp)
  simp only [hfold1, Option.bind_some]
  simpa [List.append_assoc] using hfold2

/-- Witness for C2's amended theorem: adding a node to a one-node graph with
parent list `[0]` and child list `[1]` (the new node itself). -/
theorem add_layer_with_children_contract_witness :
    (∀ p ∈ [0], p < gSingleConvert.nodes.length)
    ∧ (∀ c ∈ [1], c < gSingleConvert.nodes.length + 1)
    ∧ add_layer_with_children gSingleConvert (convertBinGrayObj none) [0] [1]
      = some { nodes := gSingleConvert.nodes ++ [convertBinGrayObj none],
               edges := gSingleConvert.edges
                 ++ [0].map (fun p => (p, gSingleConvert.nodes.length))
                 ++ [1].map (fun c => (gSingleConvert.nodes.length, c)),
               selected_layer := gSingleConvert.selected_layer } :=
  ⟨by decide, by decide,
   add_layer_with_children_contract gSingleConvert (convertBinGrayObj none)
     [0] [1] (by decide) (by decide)⟩

/-- Counterexample to C2 as stated: the Rust `add_layer_with_children`
method's return type is `()` (see `add_layer_with_children_ret`), so the
first call (assigned index 0) and the second call (assigned index 1) return
the same value, and no reading of the returned value can be the newly
assigned stable index for both concrete calls. -/
theorem add_layer_return_unit_cex :
    ¬ ∃ f : Unit → Nat,
      f (add_layer_with_children_ret InteractiveLayerGraph.new
          (convertBinGrayObj none) [] []) = 0
      ∧ f (add_layer_with_children_ret gSingleConvert
          (convertBinGrayObj none) [] []) = 1 := by
  rintro ⟨f, h0, h1⟩
  simp only [add_layer_with_children_ret] at h0 h1
  omega

/-- Counterexample to C9 as stated: a Convert node with no wired parent does
not return a `MissingInput` failure (nor succeed) - `compute` indexes
`input[0]` on an empty input slice and panics. -/
theorem compute_layer_no_parent_panics_cex :
    compute_layer gSingleConvert 0 = .panicked := rfl

/-- C9 amended: a `Convert` or `Threshold` node whose first gathered input is
empty (a wired parent that has never computed) fails with the empty-input
(`MissingInput`) failure and the graph is left untouched - so evaluating the
last node of a wired chain before its ancestors is well-defined; but a
`Convert` or `Threshold` node with no incoming edge panics on the
out-of-bounds `input[0]` access instead of returning `MissingInput`. -/
theorem single_input_missing_input_behavior :
    (∀ (g : InteractiveLayerGraph) (i : Nat) {α β : Type}
        (downA : Value → Option α) (nameA : String) (tagB : β → Value)
        (downB : Value → Option β) (nameB : String)
        (op : α → Except LErr β) (cache : Option β),
      g.nodes.get? i
          = some (convertObj downA nameA tagB downB nameB op cache) →
      (gatherInputs g i).get? 0 = some none →
      compute_layer g i = .err .emptyInput g)
    ∧ (∀ (g : InteractiveLayerGraph) (i t : Nat) (ord : Ordering)
        (cache : Option BinaryImage),
      g.nodes.get? i = some (thresholdObj t ord cache) →
      (gatherInputs g i).get? 0 = some none →
      compute_layer g i = .err .emptyInput g)
    ∧ (∀ (g : InteractiveLayerGraph) (i : Nat) {α β : Type}
        (downA : Value → Option α) (nameA : String) (tagB : β → Value)
        (downB : Value → Option β) (nameB : String)
        (op : α → Except LErr β) (cache : Option β),
      g.nodes.get? i
          = some (convertObj downA nameA tagB downB nameB op cache) →
      gatherInputs g i = [] →
      compute_layer g i = .panicked)
    ∧ (∀ (g : InteractiveLayerGraph) (i t : Nat) (ord : Ordering)
        (cache : Option BinaryImage),
      g.nodes.get? i = some (thresholdObj t ord cache) →
      gatherInputs g i = [] →
      compute_layer g i = .panicked) := by
  refine ⟨?_, ?_, ?_, ?_⟩
  · intro g i α β downA nameA tagB downB nameB op cache hnode hempty
    simp only [compute_layer, hnode, convertObj, singleInputCompute, hempty]
  · intro g i t ord cache hnode hempty
    simp only [compute_layer, hnode, thresholdObj, singleInputCompute, hempty]
  · intro g i α β downA nameA tagB downB nameB op cache hnode hnil
    simp only [compute_layer, hnode, convertObj, singleInputCompute, hnil,
      List.get?_nil]
  · intro g i t ord cache hnode hnil
    simp only [compute_layer, hnode, thresholdObj, singleInputCompute, hnil,
      List.get?_nil]

/-- Witness for C9's amended theorem: in the two-node chain the Convert node
behind its never-computed parent fails with the empty-input failure leaving
the graph untouched, and the lone Convert node with no incoming edge
panics. -/
theorem single_input_missing_input_behavior_witness :
    ((gatherInputs gChain 1).get? 0 = some none
      ∧ compute_layer gChain 1 = .err .emptyInput gChain)
    ∧ (gatherInputs gSingleConvert 0 = []
      ∧ compute_layer gSingleConvert 0 = .panicked) :=
  ⟨⟨rfl,
    single_input_missing_input_behavior.1 gChain 1 Value.asBinary
      "klex::element::BinaryImage" Value.gray Value.asGray
      "klex::element::GrayImage" Convert.computeBinaryGray none rfl rfl⟩,
   ⟨rfl,
    single_input_missing_input_behavior.2.2.1 gSingleConvert 0 Value.asBinary
      "klex::element::BinaryImage" Value.gray Value.asGray
      "klex::element::GrayImage" Convert.computeBinaryGray none rfl rfl⟩⟩

/-- The source's linearization sends a zero channel to zero. -/
theorem srgb_linearize_zero : srgb_linearize 0 = 0 := by
  unfold srgb_linearize
  rw [if_pos (by norm_num)]
  norm_num

/-- The documented linearization sends a zero channel to zero. -/
theorem srgb_linearize_documented_zero : srgb_linearize_documented 0 = 0 := by
  unfold srgb_linearize_documented
  rw [if_pos (by norm_num)]
  norm_num

/-- The documented linearization fixes a full channel:
`((1 + 0.055) / 1.055) ^ 2.4 = 1`. -/
theorem srgb_linearize_documented_one : srgb_linearize_documented 1 = 1 := by
  unfold srgb_linearize_documented
  rw [if_neg (by norm_num)]
  rw [show ((1 : ℝ) + 0.055) / 1.055 = 1 by norm_num, Real.one_rpow]

/-- The source's linearization blows a full channel up beyond 2.15:
`((1 + 0.55) / 1.055) ^ 2.4 ≥ ((1 + 0.55) / 1.055) ^ 2 ≥ 2.15`. -/
theorem srgb_linearize_one_lb : (2.15 : ℝ) ≤ srgb_linearize 1 := by
  unfold srgb_linearize
  rw [if_neg (by norm_num)]
  have hb : (1 : ℝ) ≤ ((1 : ℝ) + 0.55) / 1.055 := by norm_num
  have h2 : (((1 : ℝ) + 0.55) / 1.055) ^ (2 : ℝ)
      ≤ (((1 : ℝ) + 0.55) / 1.055) ^ (2.4 : ℝ) :=
    Real.rpow_le_rpow_of_exponent_le hb (by norm_num)
  refine le_trans ?_ h2
  rw [Real.rpow_two]
  norm_num

/-- The documented gray byte of pure red is 54:
`round(255 · 0.2126) = round(54.213) = 54`. -/
theorem gray_value_documented_red : gray_value_documented 255 0 0 = 54 := by
  unfold gray_value_documented linear_luminance
  rw [show (((255 : ℕ) : ℝ)) / 255 = 1 by norm_num,
    show (((0 : ℕ) : ℝ)) / 255 = 0 by norm_num,
    srgb_linearize_documented_one, srgb_linearize_documented_zero]
  rw [show (255 : ℝ) * (0.2126 * 1 + 0.7152 * 0 + 0.0722 * 0) = 54.213 by
    norm_num]
  rw [show round (54.213 : ℝ) = 54 by
    rw [round_eq]
    rw [show (54.213 : ℝ) + 1 / 2 = 54.713 by norm_num]
    rw [Int.floor_eq_iff] <;> norm_num]
  decide

/-- The source's gray byte of pure red is at least 110 (far from 54). -/
theorem gray_value_red_lb : 110 ≤ gray_value 255 0 0 := by
  unfold gray_value linear_luminance
  rw [show (((255 : ℕ) : ℝ)) / 255 = 1 by norm_num,
    show (((0 : ℕ) : ℝ)) / 255 = 0 by norm_num,
    srgb_linearize_zero]
  have hlb : (116 : ℝ) ≤ 255 * (0.2126 * srgb_linearize 1
      + 0.7152 * 0 + 0.0722 * 0) := by
    have h := srgb_linearize_one_lb
    nlinarith
  have hround : (110 : ℤ) ≤ round (255 * (0.2126 * srgb_linearize 1
      + 0.7152 * 0 + 0.0722 * 0)) := by
    rw [round_eq, Int.le_floor]
    push_cast
    linarith
  unfold u8_saturate
  omega

/-- The source's gray byte of pure white saturates at 255: the luminance of
white exceeds 2.15, so `255 · luminance ≥ 255` and the byte cast clamps. -/
theorem gray_value_white : gray_value 255 255 255 = 255 := by
  unfold gray_value linear_luminance
  rw [show (((255 : ℕ) : ℝ)) / 255 = 1 by norm_num]
  have hlb : (255 : ℝ) ≤ 255 * (0.2126 * srgb_linearize 1
      + 0.7152 * srgb_linearize 1 + 0.0722 * srgb_linearize 1) := by
    have h := srgb_linearize_one_lb
    nlinarith
  have hround : (255 : ℤ) ≤ round (255 * (0.2126 * srgb_linearize 1
      + 0.7152 * srgb_linearize 1 + 0.0722 * srgb_linearize 1)) := by
    rw [round_eq, Int.le_floor]
    push_cast
    linarith
  unfold u8_saturate
  omega

/-- The documented gray byte of pure white is exactly 255:
`0.2126 + 0.7152 + 0.0722 = 1`. -/
theorem gray_value_documented_white : gray_value_documented 255 255 255 = 255 := by
  unfold gray_value_documented linear_luminance
  rw [show (((255 : ℕ) : ℝ)) / 255 = 1 by norm_num,
    srgb_linearize_documented_one]
  rw [show (255 : ℝ) * (0.2126 * 1 + 0.7152 * 1 + 0.0722 * 1) = 255 by
    norm_num]
  rw [show round (255 : ℝ) = 255 by
    rw [round_eq]
    rw [show (255 : ℝ) + 1 / 2 = 255.5 by norm_num]
    rw [Int.floor_eq_iff] <;> norm_num]
  decide

/-- C3: the conversion's evaluation at the claim's test pixels. On pure red
`(255, 0, 0, 255)` the documented formula (offset `0.055`) yields gray byte
54, but the source - whose else branch reads `(c + 0.55) / 1.055` - yields a
gray byte of at least 110 (in fact 136), so the code diverges from the
documented formula; the alpha byte passes through as 255, and on pure white
both the source and the documented formula yield 255. -/
theorem rgba_gray_alpha_divergence :
    gray_value_documented 255 0 0 = 54
    ∧ 110 ≤ gray_value 255 0 0
    ∧ gray_value 255 0 0 ≠ gray_value_documented 255 0 0
    ∧ rgba_to_gray_alpha_pixel ⟨255, 0, 0, 255⟩ = (gray_value 255 0 0, 255)
    ∧ gray_value 255 255 255 = 255
    ∧ gray_value_documented 255 255 255 = 255 := by
  refine ⟨gray_value_documented_red, gray_value_red_lb, ?_, rfl,
    gray_value_white, gray_value_documented_white⟩
  have h1 := gray_value_red_lb
  rw [gray_value_documented_red]
  omega
